import Mathlib

/-!
Shallow embedding of the fetch-transform-render pipeline of
src/stock_viewer.py, with theorems checking the natural-language
specification against the code.
-/

namespace StockViewer

/-! ## Calendar dates (python datetime.date) -/

/-- A calendar date, as python datetime.date stores it (year, month, day). -/
structure Date where
  year : Nat
  month : Nat
  day : Nat
deriving DecidableEq, Repr

/-- Gregorian leap-year rule, as used by datetime.date. -/
def isLeap (y : Nat) : Bool :=
  y % 4 == 0 && (y % 100 != 0 || y % 400 == 0)

/-- Number of days in a month. -/
def daysInMonth (y m : Nat) : Nat :=
  if m = 2 then (if isLeap y then 29 else 28)
  else if m = 4 ∨ m = 6 ∨ m = 9 ∨ m = 11 then 30
  else 31

/-- Validity check performed by the datetime.date constructor
(MINYEAR = 1, MAXYEAR = 9999). -/
def validYMD (y m d : Int) : Bool :=
  1 ≤ y && y ≤ 9999 && 1 ≤ m && m ≤ 12 && 1 ≤ d && d ≤ (daysInMonth y.toNat m.toNat : Int)

/-- Rata-die style day number (days since 0000-03-01), standard
days-from-civil algorithm; total on Nat for years ≥ 1. -/
def Date.toRD (dd : Date) : Nat :=
  let y := if dd.month ≤ 2 then dd.year - 1 else dd.year
  let era := y / 400
  let yoe := y % 400
  let mp := if 2 < dd.month then dd.month - 3 else dd.month + 9
  let doy := (153 * mp + 2) / 5 + dd.day - 1
  let doe := yoe * 365 + yoe / 4 - yoe / 100 + doy
  era * 146097 + doe

/-- Inverse of Date.toRD, standard civil-from-days algorithm. -/
def Date.fromRD (n : Nat) : Date :=
  let era := n / 146097
  let doe := n % 146097
  let yoe := (doe - doe / 1460 + doe / 36524 - doe / 146096) / 365
  let y := yoe + era * 400
  let doy := doe - (365 * yoe + yoe / 4 - yoe / 100)
  let mp := (5 * doy + 2) / 153
  let d := doy - (153 * mp + 2) / 5 + 1
  let m := if mp < 10 then mp + 3 else mp - 9
  { year := if m ≤ 2 then y + 1 else y, month := m, day := d }

/-- date + timedelta(days = k). -/
def addDays (d : Date) (k : Nat) : Date := Date.fromRD (d.toRD + k)

/-- date - timedelta(days = k). -/
def subDays (d : Date) (k : Nat) : Date := Date.fromRD (d.toRD - k)

/-- Date comparison, as python orders dates (lexicographic on (y, m, d)). -/
def dateLt (a b : Date) : Prop :=
  a.year < b.year ∨ (a.year = b.year ∧
    (a.month < b.month ∨ (a.month = b.month ∧ a.day < b.day)))

instance (a b : Date) : Decidable (dateLt a b) := by
  unfold dateLt; infer_instance

/-- Left-pad a numeral string with zeros to a given width. -/
def padNum (width n : Nat) : String :=
  let s := toString n
  String.mk (List.replicate (width - s.length) '0') ++ s

/-- date.isoformat(), as used by str(date) in the title and provider call. -/
def Date.iso (d : Date) : String :=
  padNum 4 d.year ++ "-" ++ padNum 2 d.month ++ "-" ++ padNum 2 d.day

/-! ## Python string primitives used by parse_date -/

/-- ASCII whitespace stripped by python str.strip(). -/
def isPySpace (c : Char) : Bool :=
  c == ' ' || c == '\t' || c == '\n' || c == '\r' || c == '\x0b' || c == '\x0c'

/-- str.strip() on a character list. -/
def pyStripL (cs : List Char) : List Char :=
  ((cs.dropWhile isPySpace).reverse.dropWhile isPySpace).reverse

/-- s.split("-"): split on every dash, keeping empty pieces. -/
def splitOnDashL (cs : List Char) : List (List Char) :=
  cs.foldr
    (fun c acc =>
      if c = '-' then [] :: acc
      else match acc with
        | a :: rest => (c :: a) :: rest
        | [] => [[c]])
    [[]]

/-- Digit grammar accepted by python int(): nonempty digits with single
underscores allowed strictly between digits. -/
def pyDigits : List Char → Bool
  | [] => false
  | [c] => c.isDigit
  | c :: c2 :: rest =>
    c.isDigit && (if c2 = '_' then pyDigits rest else pyDigits (c2 :: rest))

/-- Decimal value of a digit list (most significant first). -/
def digitsToNat (cs : List Char) : Nat :=
  cs.foldl (fun n c => 10 * n + (c.toNat - 48)) 0

/-- Magnitude part of python int(): digit grammar check, underscores removed. -/
def pyUIntL (cs : List Char) : Option Nat :=
  if pyDigits cs then some (digitsToNat (cs.filter fun c => c != '_')) else none

/-- python int() on a character list: strip whitespace, optional sign,
then the digit grammar; none models a raised ValueError. -/
def pyIntL (cs : List Char) : Option Int :=
  match pyStripL cs with
  | [] => none
  | c :: rest =>
    if c = '+' then
      match pyUIntL rest with
      | some n => some (n : Int)
      | none => none
    else if c = '-' then
      match pyUIntL rest with
      | some n => some (-(n : Int))
      | none => none
    else
      match pyUIntL (c :: rest) with
      | some n => some (n : Int)
      | none => none

/-! ## parse_date (stock_viewer.py lines 32-41) -/

/-- The message of the ValueError raised by parse_date; the offending
(stripped) text is quoted inside it. -/
def invalidDateMsg (t : List Char) : String :=
  "Invalid date: " ++ String.mk ('\x27' :: t ++ ['\x27']) ++ ". Expected YYYY-MM-DD"

/-- The destructuring y, m, d = [int(x) for x in s.split("-")]: each part
must parse as an int and there must be exactly three parts; any failure
is caught by the same except branch. -/
def parseParts (parts : List (List Char)) : Option (Int × Int × Int) :=
  match parts with
  | [a, b, c] =>
    match pyIntL a, pyIntL b, pyIntL c with
    | some y, some m, some d => some (y, m, d)
    | _, _, _ => none
  | _ => none

/-- parse_date from stock_viewer.py: strip, empty means fallback, otherwise
split on dashes, convert each part with int(), build datetime.date; every
exception is mapped to the single ValueError message. -/
def parse_date (s : String) (fallback : Date) : Except String Date :=
  if pyStripL s.data = [] then .ok fallback
  else
    match parseParts (splitOnDashL (pyStripL s.data)) with
    | some (y, m, d) =>
      if validYMD y m d then .ok ⟨y.toNat, m.toNat, d.toNat⟩
      else .error (invalidDateMsg (pyStripL s.data))
    | none => .error (invalidDateMsg (pyStripL s.data))

/-- Follows the claim wording for comparison: a strict YYYY-MM-DD string
(4-2-2 digit groups separated by dashes) denoting a valid calendar date. -/
def strictYMD (t : List Char) : Option Date :=
  match splitOnDashL t with
  | [p1, p2, p3] =>
    if p1.length = 4 ∧ p2.length = 2 ∧ p3.length = 2 ∧
        ((p1 ++ p2 ++ p3).all Char.isDigit) then
      if validYMD (digitsToNat p1) (digitsToNat p2) (digitsToNat p3) then
        some ⟨digitsToNat p1, digitsToNat p2, digitsToNat p3⟩
      else none
    else none
  | _ => none

/-! ## Request validation (_fetch_and_plot_async, lines 186-207) -/

/-- symbol.strip().upper() applied to the raw symbol text. -/
def stripUpper (s : String) : String :=
  String.mk ((pyStripL s.data).map Char.toUpper)

/-- The immutable snapshot handed to the background thread: exactly the
four arguments of threading.Thread(target=_fetch_and_plot, args=...). -/
structure FetchRequest where
  symbol : String
  start : Date
  endDate : Date
  interval : String
deriving DecidableEq, Repr

/-- The interval combobox values (line 104). -/
def enumeratedIntervals : List String :=
  ["1d", "1wk", "1mo", "1h", "30m", "15m", "5m", "1m"]

/-- Validation section of _fetch_and_plot_async: empty symbol check, date
parsing with fallbacks (today minus 365 days, today), the end-before-start
check, and the interval defaulting (self.interval_var.get() or "1d").
An error result means the messagebox is shown and no thread is started. -/
def validateRequest (symbolRaw startRaw endRaw intervalRaw : String)
    (today : Date) : Except String FetchRequest :=
  if stripUpper symbolRaw = "" then .error "Ticker cannot be empty"
  else
    match parse_date startRaw (subDays today 365) with
    | .error e => .error e
    | .ok start =>
      match parse_date endRaw today with
      | .error e => .error e
      | .ok en =>
        if dateLt en start then .error "End date is before start date"
        else .ok ⟨stripUpper symbolRaw, start, en,
          if intervalRaw = "" then "1d" else intervalRaw⟩

/-! ## Provider call bounds (_fetch_and_plot, lines 209-213) -/

/-- end_inclusive = end + dt.timedelta(days=1), line 212: the end bound
passed to yf.download. -/
def end_inclusive (endDate : Date) : Date := addDays endDate 1

/-- Modelled from the spec: the length of one interval unit in whole days
for the enumerated intervals ("one interval unit past the literal end
date"); none for the intraday intervals, whose unit is shorter than a day. -/
def specIntervalUnitDays : String → Option Nat
  | "1d" => some 1
  | "1wk" => some 7
  | "1mo" => some 30
  | _ => none

/-! ## Data model of the downloaded table -/

/-- A cell of the Volume column as the duck-typed numpy row value: either
a scalar or a (possibly nested) array slice. -/
inductive PyCell where
  | scalar (n : Int)
  | arr (xs : List Int)
deriving DecidableEq, Repr

/-- The downloaded table: the price column used for plotting, whether the
"Adj Close" column is present, and the Volume column when present. -/
structure Frame where
  prices : List ℚ
  hasAdjClose : Bool
  volume : Option (List PyCell)
deriving DecidableEq, Repr

/-- Outcome of the yf.download call: it raises, or returns None, or
returns a table (possibly empty). -/
inductive ProviderResult where
  | raised (msg : String)
  | table (t : Option Frame)
deriving DecidableEq, Repr

/-! ## Series transform (_fetch_and_plot, lines 224-235) -/

/-- df[price_col].rolling(window=w).mean(): position i holds the mean of
the w prices ending at i once i+1 ≥ w, and NaN (modelled none) before. -/
def rollingMean (w : Nat) (ps : List ℚ) : List (Option ℚ) :=
  (List.range ps.length).map fun i =>
    if 1 ≤ w ∧ w ≤ i + 1 then some ((((ps.drop (i + 1 - w)).take w).sum) / w)
    else none

/-- The three overlay toggles read via self.ma5_var.get() etc. -/
structure MaFlags where
  ma5 : Bool
  ma20 : Bool
  ma50 : Bool
deriving DecidableEq, Repr

/-- The MA columns added to df and collected in ma_cols, in code order. -/
def computeMAs (flags : MaFlags) (ps : List ℚ) : List (String × List (Option ℚ)) :=
  (if flags.ma5 then [("MA5", rollingMean 5 ps)] else []) ++
  (if flags.ma20 then [("MA20", rollingMean 20 ps)] else []) ++
  (if flags.ma50 then [("MA50", rollingMean 50 ps)] else [])

/-- price_col = "Adj Close" if "Adj Close" in df.columns else "Close". -/
def priceColOf (f : Frame) : String :=
  if f.hasAdjClose then "Adj Close" else "Close"

/-- The RuntimeError message raised on None or empty download results. -/
def noDataMsg : String :=
  "No data returned. Try a different symbol, date range, or interval."

/-- Body of _fetch_and_plot after the provider call: a raised exception or
a None/empty table short-circuits to the error path; otherwise the price
column is chosen and the enabled MA columns are derived. -/
def fetchAndPlot (flags : MaFlags) (pr : ProviderResult) :
    Except String (Frame × String × List (String × List (Option ℚ))) :=
  match pr with
  | .raised m => .error m
  | .table none => .error noDataMsg
  | .table (some f) =>
    if f.prices = [] then .error noDataMsg
    else .ok (f, priceColOf f, computeMAs flags f.prices)

/-! ## Render dispatcher (_on_fetch_error and _draw_plot, lines 240-279) -/

/-- What one successful redraw leaves on the figure. -/
structure ChartContent where
  priceLine : List ℚ
  priceLabel : String
  maLines : List (String × List (Option ℚ))
  title : String
  volumeBars : Option (List Int)
  volLabel : Bool
deriving DecidableEq, Repr

/-- UI state touched by the two result callbacks: the status line, the
Load/Refresh control, and the chart surface. -/
structure UiState where
  status : String
  loadBtnEnabled : Bool
  chart : Option ChartContent
deriving DecidableEq, Repr

/-- _on_fetch_error: re-enable the Load control, set status to "Error",
show the messagebox; the figure is not touched. -/
def onFetchError (u : UiState) : UiState :=
  { u with loadBtnEnabled := true, status := "Error" }

/-- The chart title f-string of line 254. -/
def mkTitle (symbol pc interval : String) (start endDate : Date) : String :=
  symbol ++ "  •  " ++ pc ++ "  •  " ++ interval ++ "   (" ++
    start.iso ++ " → " ++ endDate.iso ++ ")"

/-- lst = [v[0] for v in vol]: take the first element of each cell; a
scalar cell (not subscriptable) or an empty array raises, modelled none. -/
def extractVolume (cells : List PyCell) : Option (List Int) :=
  cells.mapM fun v =>
    match v with
    | .arr (x :: _) => some x
    | .arr [] => none
    | .scalar _ => none

/-- _draw_plot: rebuild the chart content, then set the row-count status
and re-enable the Load control. The second component lists the error
dialogs shown (the volume except branch shows a "Volume error" box whose
text is the runtime exception string, abstracted here to its title). -/
def drawPlot (symbol : String) (f : Frame) (priceCol : String)
    (maCols : List (String × List (Option ℚ))) (interval : String)
    (start endDate : Date) (u : UiState) : UiState × List String :=
  let volResult : Option (List Int) × List String :=
    match f.volume with
    | none => (none, [])
    | some cells =>
      match extractVolume cells with
      | some lst => (some lst, [])
      | none => (none, ["Volume error"])
  ({ status := "Loaded " ++ symbol ++ ": " ++ toString f.prices.length ++ " rows",
     loadBtnEnabled := true,
     chart := some
       { priceLine := f.prices
         priceLabel := priceCol
         maLines := maCols
         title := mkTitle symbol priceCol interval start endDate
         volumeBars := volResult.1
         volLabel := f.volume.isSome } },
   volResult.2)

/-- One fetch cycle after dispatch: the background body followed by the
callback scheduled on the UI thread (error callback or draw callback).
The failure dialog carries the exception text shown by _on_fetch_error. -/
def cycleAfterFetch (flags : MaFlags) (pr : ProviderResult)
    (symbol interval : String) (start endDate : Date) (u : UiState) :
    UiState × List String :=
  match fetchAndPlot flags pr with
  | .error m => (onFetchError u, ["Download error: " ++ m])
  | .ok (f, pc, mas) => drawPlot symbol f pc mas interval start endDate u

/-! ## Live view variables (for the dispatch-snapshot claim) -/

/-- The tk variables backing the controls; the thread args copy symbol,
start, end and interval out of these at dispatch time, while the MA
toggle variables are read again inside _fetch_and_plot. -/
structure ViewVars where
  symbolVar : String
  startVar : String
  endVar : String
  intervalVar : String
  ma5Var : Bool
  ma20Var : Bool
  ma50Var : Bool
deriving DecidableEq, Repr

/-- The toggle values _fetch_and_plot reads at transform time. -/
def flagsAt (v : ViewVars) : MaFlags := ⟨v.ma5Var, v.ma20Var, v.ma50Var⟩

/-- The background body as a function of the view variables live at
transform time and the provider result. -/
def backgroundTransform (v : ViewVars) (pr : ProviderResult) :
    Except String (Frame × String × List (String × List (Option ℚ))) :=
  fetchAndPlot (flagsAt v) pr

/-! ## Quick ranges (_set_quick_range, lines 167-183) -/

/-- The payloads wired to the quick-range buttons (line 116-124). -/
inductive QuickPayload where
  | ytd
  | maxRange
  | days (n : Nat)
deriving DecidableEq, Repr

/-- _set_quick_range: compute the (start, end) pair written back into the
date fields before re-dispatching a fetch. -/
def setQuickRange (payload : QuickPayload) (today : Date) : Date × Date :=
  match payload with
  | .ytd => (⟨today.year, 1, 1⟩, today)
  | .maxRange => (⟨1980, 1, 1⟩, today)
  | .days n => (subDays today n, today)

/-! ## Generic helper instances and lemmas -/

instance {ε α : Type} [DecidableEq ε] [DecidableEq α] : DecidableEq (Except ε α)
  | .error a, .error b =>
    if h : a = b then .isTrue (by rw [h])
    else .isFalse (fun hc => by cases hc; exact h rfl)
  | .error _, .ok _ => .isFalse (fun hc => Except.noConfusion hc)
  | .ok _, .error _ => .isFalse (fun hc => Except.noConfusion hc)
  | .ok a, .ok b =>
    if h : a = b then .isTrue (by rw [h])
    else .isFalse (fun hc => by cases hc; exact h rfl)

set_option synthInstance.maxSize 2048 in
instance : DecidableEq (Frame × String × List (String × List (Option ℚ))) :=
  inferInstance

/-! ## C10: quick ranges -/

/-- C10: the quick-range helper is deterministic in the current date; with
today = 2024-07-15 the YTD preset yields (2024-01-01, 2024-07-15), and the
Max preset yields the fixed origin 1980-01-01 with end = today, never an
open-ended range. -/
theorem quickRange_deterministic :
    setQuickRange .ytd ⟨2024, 7, 15⟩ = (⟨2024, 1, 1⟩, ⟨2024, 7, 15⟩) ∧
    (∀ today : Date, setQuickRange .maxRange today = (⟨1980, 1, 1⟩, today)) :=
  ⟨rfl, fun _ => rfl⟩

/-! ## C6: provider end bound -/

/-- C6 counterexample: for the enumerated interval "1wk" one interval unit
is seven days, but the end bound passed to the provider is not seven days
past the end date 2024-07-15; the code always adds one day. -/
theorem end_bound_not_one_interval_unit :
    specIntervalUnitDays "1wk" = some 7 ∧
    "1wk" ∈ enumeratedIntervals ∧
    end_inclusive ⟨2024, 7, 15⟩ ≠ addDays ⟨2024, 7, 15⟩ 7 := by
  refine ⟨rfl, by decide, ?_⟩
  decide

/-- C6 amended: the Fetch Controller passes the provider an end bound
exactly one day past the literal end date, for every interval; this
equals one interval unit only in the daily case. -/
theorem end_bound_one_day (e : Date) :
    end_inclusive e = addDays e 1 ∧ specIntervalUnitDays "1d" = some 1 :=
  ⟨rfl, rfl⟩

/-! ## C8: what determines the background result -/

/-- C8 counterexample: two runs with the same dispatch-time snapshot
(symbol, dates, interval) and the same provider data, whose overlay
toggles differ at transform time, produce different derived series — the
toggles are read live on the background thread, not copied at dispatch. -/
theorem background_depends_on_live_toggles :
    backgroundTransform
        ⟨"AAPL", "2024-01-01", "2024-06-30", "1d", true, true, true⟩
        (.table (some ⟨[1, 2, 3, 4, 5], true, none⟩)) ≠
      backgroundTransform
        ⟨"AAPL", "2024-01-01", "2024-06-30", "1d", false, false, false⟩
        (.table (some ⟨[1, 2, 3, 4, 5], true, none⟩)) := by
  decide

/-- C8 amended: the background result is fully determined by the provider
data, the copied (symbol, start, end, interval) arguments, and the overlay
toggle values as read at transform time: any two view states agreeing on
the three toggles give the same derived series, so post-dispatch mutation
of the symbol, date or interval fields cannot affect an in-flight cycle,
while post-dispatch mutation of a toggle can. -/
theorem background_determined_by_args_and_toggles
    (v1 v2 : ViewVars) (pr : ProviderResult)
    (h5 : v1.ma5Var = v2.ma5Var) (h20 : v1.ma20Var = v2.ma20Var)
    (h50 : v1.ma50Var = v2.ma50Var) :
    backgroundTransform v1 pr = backgroundTransform v2 pr := by
  unfold backgroundTransform flagsAt
  rw [h5, h20, h50]

/-- Witness for background_determined_by_args_and_toggles at two concrete
view states differing in every field except the toggles. -/
theorem background_determined_witness :
    (ViewVars.ma5Var ⟨"AAPL", "a", "b", "1d", true, false, true⟩ =
      ViewVars.ma5Var ⟨"MSFT", "c", "d", "1wk", true, false, true⟩) ∧
    (ViewVars.ma20Var ⟨"AAPL", "a", "b", "1d", true, false, true⟩ =
      ViewVars.ma20Var ⟨"MSFT", "c", "d", "1wk", true, false, true⟩) ∧
    (ViewVars.ma50Var ⟨"AAPL", "a", "b", "1d", true, false, true⟩ =
      ViewVars.ma50Var ⟨"MSFT", "c", "d", "1wk", true, false, true⟩) ∧
    backgroundTransform ⟨"AAPL", "a", "b", "1d", true, false, true⟩
        (.table (some ⟨[1, 2, 3], true, none⟩)) =
      backgroundTransform ⟨"MSFT", "c", "d", "1wk", true, false, true⟩
        (.table (some ⟨[1, 2, 3], true, none⟩)) :=
  ⟨rfl, rfl, rfl,
    background_determined_by_args_and_toggles _ _ _ rfl rfl rfl⟩

/-! ## C9: interval handling -/

/-- C9 counterexample: "2d" is outside the enumerated interval set, yet
validation succeeds and the request carries "2d" unchanged — out-of-set
values are not rejected. -/
theorem interval_out_of_set_accepted :
    ("2d" ∉ enumeratedIntervals) ∧
    validateRequest "AAPL" "2024-01-01" "2024-06-30" "2d" ⟨2024, 7, 15⟩ =
      .ok ⟨"AAPL", ⟨2024, 1, 1⟩, ⟨2024, 6, 30⟩, "2d"⟩ :=
  ⟨by decide, rfl⟩

/-- C9 amended: the Request Model yields the daily interval "1d" when the
raw interval is unset (empty) and passes any non-empty raw value through
unchanged, enumerated or not; no out-of-set value is rejected. -/
theorem interval_default_and_passthrough
    (sR stR enR iR : String) (today : Date) (req : FetchRequest)
    (h : validateRequest sR stR enR iR today = .ok req) :
    req.interval = if iR = "" then "1d" else iR := by
  unfold validateRequest at h
  split at h
  · exact Except.noConfusion h
  · split at h
    · exact Except.noConfusion h
    · split at h
      · exact Except.noConfusion h
      · split at h
        · exact Except.noConfusion h
        · injection h with h2
          subst h2
          rfl

/-- Witness for interval_default_and_passthrough: the empty raw interval
defaults to "1d". -/
theorem interval_default_witness :
    validateRequest "AAPL" "2024-01-01" "2024-06-30" "" ⟨2024, 7, 15⟩ =
      .ok ⟨"AAPL", ⟨2024, 1, 1⟩, ⟨2024, 6, 30⟩, "1d"⟩ ∧
    FetchRequest.interval ⟨"AAPL", ⟨2024, 1, 1⟩, ⟨2024, 6, 30⟩, "1d"⟩ =
      if ("" : String) = "" then "1d" else "" :=
  ⟨rfl, interval_default_and_passthrough "AAPL" "2024-01-01" "2024-06-30" ""
    ⟨2024, 7, 15⟩ _ rfl⟩

/-! ## C2: the single fetch-failure class -/

/-- C2: a provider call that raises, returns None, or returns an empty
table ends the cycle through the same error handler: the two no-data forms
carry the identical message, the status becomes "Error", the refresh
control is re-enabled, and the chart surface is left exactly as it was —
no zero-row render happens. -/
theorem fetch_failure_uniform (flags : MaFlags) (msg symbol interval : String)
    (start endDate : Date) (u : UiState) (f : Frame) (hf : f.prices = []) :
    cycleAfterFetch flags (.raised msg) symbol interval start endDate u =
      (onFetchError u, ["Download error: " ++ msg]) ∧
    cycleAfterFetch flags (.table none) symbol interval start endDate u =
      (onFetchError u, ["Download error: " ++ noDataMsg]) ∧
    cycleAfterFetch flags (.table (some f)) symbol interval start endDate u =
      (onFetchError u, ["Download error: " ++ noDataMsg]) ∧
    (onFetchError u).status = "Error" ∧
    (onFetchError u).loadBtnEnabled = true ∧
    (onFetchError u).chart = u.chart := by
  refine ⟨rfl, rfl, ?_, rfl, rfl, rfl⟩
  simp [cycleAfterFetch, fetchAndPlot, hf]

/-- Witness for fetch_failure_uniform: the empty-table case at a concrete
empty frame and concrete UI state. -/
theorem fetch_failure_uniform_witness :
    (Frame.mk [] true none).prices = [] ∧
    cycleAfterFetch ⟨true, true, true⟩ (.table (some (Frame.mk [] true none)))
        "AAPL" "1d" ⟨2024, 1, 1⟩ ⟨2024, 6, 30⟩ ⟨"Ready", false, none⟩ =
      (onFetchError ⟨"Ready", false, none⟩, ["Download error: " ++ noDataMsg]) :=
  ⟨rfl,
    (fetch_failure_uniform ⟨true, true, true⟩ "boom" "AAPL" "1d"
      ⟨2024, 1, 1⟩ ⟨2024, 6, 30⟩ ⟨"Ready", false, none⟩
      (Frame.mk [] true none) rfl).2.2.1⟩

/-! ## C3: every cycle ends idle -/

/-- C3: whatever the provider outcome, the cycle ends with the refresh
control re-enabled, and on success the status line reads
"Loaded SYMBOL: n rows" with n the row count of the rendered table. -/
theorem cycle_ends_idle (flags : MaFlags) (pr : ProviderResult)
    (symbol interval : String) (start endDate : Date) (u : UiState) :
    (cycleAfterFetch flags pr symbol interval start endDate u).1.loadBtnEnabled
      = true ∧
    (∀ f pc mas, fetchAndPlot flags pr = .ok (f, pc, mas) →
      (cycleAfterFetch flags pr symbol interval start endDate u).1.status =
        "Loaded " ++ symbol ++ ": " ++ toString f.prices.length ++ " rows") := by
  constructor
  · unfold cycleAfterFetch
    rcases hres : fetchAndPlot flags pr with m | ⟨f, pc, mas⟩
    · rfl
    · rfl
  · intro f pc mas h
    unfold cycleAfterFetch
    rw [h]
    rfl

/-- Witness for cycle_ends_idle at a successful two-row fetch. -/
theorem cycle_ends_idle_witness :
    fetchAndPlot ⟨false, false, false⟩ (.table (some ⟨[1, 2], true, none⟩)) =
      .ok (⟨[1, 2], true, none⟩, "Adj Close", []) ∧
    (cycleAfterFetch ⟨false, false, false⟩
        (.table (some ⟨[1, 2], true, none⟩)) "AAPL" "1d"
        ⟨2024, 1, 1⟩ ⟨2024, 6, 30⟩ ⟨"Ready", false, none⟩).1.status =
      "Loaded AAPL: 2 rows" ∧
    (cycleAfterFetch ⟨false, false, false⟩
        (.table (some ⟨[1, 2], true, none⟩)) "AAPL" "1d"
        ⟨2024, 1, 1⟩ ⟨2024, 6, 30⟩ ⟨"Ready", false, none⟩).1.loadBtnEnabled =
      true :=
  ⟨rfl,
    (cycle_ends_idle ⟨false, false, false⟩ (.table (some ⟨[1, 2], true, none⟩))
      "AAPL" "1d" ⟨2024, 1, 1⟩ ⟨2024, 6, 30⟩ ⟨"Ready", false, none⟩).2
      ⟨[1, 2], true, none⟩ "Adj Close" [] rfl,
    (cycle_ends_idle ⟨false, false, false⟩ (.table (some ⟨[1, 2], true, none⟩))
      "AAPL" "1d" ⟨2024, 1, 1⟩ ⟨2024, 6, 30⟩ ⟨"Ready", false, none⟩).1⟩

/-! ## C7: degraded volume rendering -/

/-- C7 counterexample: with a Volume column of plain scalars the
extraction [v[0] for v in vol] fails, and the render shows a blocking
"Volume error" dialog — the degradation is not silently absorbed. -/
theorem volume_error_dialog_shown :
    extractVolume [PyCell.scalar 100, PyCell.scalar 200] = none ∧
    (drawPlot "AAPL" ⟨[1, 2], true, some [PyCell.scalar 100, PyCell.scalar 200]⟩
        "Adj Close" [] "1d" ⟨2024, 1, 1⟩ ⟨2024, 6, 30⟩
        ⟨"Ready", false, none⟩).2 = ["Volume error"] :=
  ⟨rfl, rfl⟩

/-- C7 amended: when volume extraction fails only the volume bars are
dropped and a "Volume error" dialog is shown; the rest of the render —
price line, MA lines, title, row-count status and the control re-enable —
still completes, and the volume axis label is still set. -/
theorem volume_degrades_render (symbol pc interval : String)
    (mas : List (String × List (Option ℚ))) (f : Frame)
    (start endDate : Date) (u : UiState) (cells : List PyCell)
    (hv : f.volume = some cells) (hx : extractVolume cells = none) :
    (drawPlot symbol f pc mas interval start endDate u).2 = ["Volume error"] ∧
    (drawPlot symbol f pc mas interval start endDate u).1.chart =
      some ⟨f.prices, pc, mas, mkTitle symbol pc interval start endDate,
        none, true⟩ ∧
    (drawPlot symbol f pc mas interval start endDate u).1.status =
      "Loaded " ++ symbol ++ ": " ++ toString f.prices.length ++ " rows" ∧
    (drawPlot symbol f pc mas interval start endDate u).1.loadBtnEnabled =
      true := by
  unfold drawPlot
  rw [hv]
  simp [hx]

/-- Witness for volume_degrades_render at a concrete frame whose volume
cells are plain scalars. -/
theorem volume_degrades_render_witness :
    (Frame.mk [1, 2] true (some [PyCell.scalar 7])).volume =
      some [PyCell.scalar 7] ∧
    extractVolume [PyCell.scalar 7] = none ∧
    (drawPlot "MSFT" (Frame.mk [1, 2] true (some [PyCell.scalar 7]))
        "Close" [] "1wk" ⟨2024, 1, 1⟩ ⟨2024, 6, 30⟩
        ⟨"Ready", false, none⟩).1.status = "Loaded MSFT: 2 rows" :=
  ⟨rfl, rfl, by
    have h := (volume_degrades_render "MSFT" "Close" "1wk" []
      (Frame.mk [1, 2] true (some [PyCell.scalar 7]))
      ⟨2024, 1, 1⟩ ⟨2024, 6, 30⟩ ⟨"Ready", false, none⟩
      [PyCell.scalar 7] rfl rfl).2.2.1
    exact h.trans rfl⟩

/-! ## C5: date-order validation -/

/-- C5: when both dates parse, a pair with start ≤ end validates into a
request carrying exactly those bounds, and a pair with end < start fails
with the message naming the date relationship (so no fetch thread is
started — an error result short-circuits before dispatch). -/
theorem validate_bounds (sR stR enR iR : String) (today st en : Date)
    (hsym : ¬ stripUpper sR = "")
    (hst : parse_date stR (subDays today 365) = .ok st)
    (hen : parse_date enR today = .ok en) :
    (¬ dateLt en st → validateRequest sR stR enR iR today =
      .ok ⟨stripUpper sR, st, en, if iR = "" then "1d" else iR⟩) ∧
    (dateLt en st → validateRequest sR stR enR iR today =
      .error "End date is before start date") := by
  unfold validateRequest
  rw [if_neg hsym]
  simp only [hst, hen]
  constructor
  · intro h
    rw [if_neg h]
  · intro h
    rw [if_pos h]

/-- Witness for validate_bounds: a concrete ordered pair of parsed dates
validates into a request with exactly those bounds (and the raw symbol
" aapl " is normalized to "AAPL" on the way). -/
theorem validate_bounds_witness :
    (¬ stripUpper " aapl " = "") ∧
    parse_date "2024-01-01" (subDays ⟨2024, 7, 15⟩ 365) = .ok ⟨2024, 1, 1⟩ ∧
    parse_date "2024-06-30" ⟨2024, 7, 15⟩ = .ok ⟨2024, 6, 30⟩ ∧
    (¬ dateLt ⟨2024, 6, 30⟩ ⟨2024, 1, 1⟩) ∧
    validateRequest " aapl " "2024-01-01" "2024-06-30" "1d" ⟨2024, 7, 15⟩ =
      .ok ⟨"AAPL", ⟨2024, 1, 1⟩, ⟨2024, 6, 30⟩, "1d"⟩ :=
  ⟨by decide, rfl, rfl, by decide,
    (validate_bounds " aapl " "2024-01-01" "2024-06-30" "1d"
      ⟨2024, 7, 15⟩ ⟨2024, 1, 1⟩ ⟨2024, 6, 30⟩ (by decide) rfl rfl).1
      (by decide)⟩

/-! ## C1: moving averages -/

/-- Sum of a w-wide window starting at position a, as a sum of indexed
elements. -/
theorem sum_take_drop (ps : List ℚ) : ∀ (w a : Nat), a + w ≤ ps.length →
    ((ps.drop a).take w).sum = ∑ j in Finset.range w, ps.getD (a + j) 0 := by
  intro w
  induction w with
  | zero =>
    intro a h
    simp
  | succ n ih =>
    intro a h
    rw [List.take_succ, List.sum_append, ih a (by omega), Finset.sum_range_succ]
    congr 1
    rw [List.getElem?_drop]
    have hx : a + n < ps.length := by omega
    rw [List.getElem?_eq_getElem hx]
    simp [List.getD_eq_getElem?_getD, List.getElem?_eq_getElem hx]

/-- C1: for each enabled window size w (5, 20 or 50), the derived column
named MAw is the rolling mean of the price column: position i holds the
arithmetic mean of the prices at positions i−w+1 through i once i ≥ w−1,
holds the distinguishable undefined value (none, the NaN of the code) at
every earlier position, and for a series shorter than w every position is
undefined. -/
theorem rollingMean_spec (w : Nat) (hw : w = 5 ∨ w = 20 ∨ w = 50)
    (ps : List ℚ) :
    ("MA" ++ toString w, rollingMean w ps) ∈ computeMAs ⟨true, true, true⟩ ps ∧
    (∀ i, i < ps.length → w - 1 ≤ i →
      (rollingMean w ps)[i]? =
        some (some ((∑ j in Finset.Icc (i + 1 - w) i, ps.getD j 0) / w))) ∧
    (∀ i, i < ps.length → i < w - 1 → (rollingMean w ps)[i]? = some none) ∧
    (ps.length < w → ∀ x ∈ rollingMean w ps, x = none) := by
  have hw1 : 1 ≤ w := by rcases hw with h | h | h <;> omega
  refine ⟨?_, ?_, ?_, ?_⟩
  · rcases hw with h | h | h <;> subst h
    · have hs : ("MA" ++ toString 5 : String) = "MA5" := by decide
      rw [hs]
      exact List.mem_cons_self _ _
    · have hs : ("MA" ++ toString 20 : String) = "MA20" := by decide
      rw [hs]
      exact List.mem_cons_of_mem _ (List.mem_cons_self _ _)
    · have hs : ("MA" ++ toString 50 : String) = "MA50" := by decide
      rw [hs]
      exact List.mem_cons_of_mem _ (List.mem_cons_of_mem _ (List.mem_cons_self _ _))
  · intro i hi hwi
    unfold rollingMean
    rw [List.getElem?_map, List.getElem?_range hi]
    simp only [Option.map_some']
    rw [if_pos ⟨hw1, by omega⟩]
    have hsum := sum_take_drop ps w (i + 1 - w) (by omega)
    rw [hsum]
    have hre : (∑ j in Finset.Icc (i + 1 - w) i, ps.getD j 0) =
        ∑ j in Finset.range w, ps.getD ((i + 1 - w) + j) 0 := by
      rw [← Nat.Ico_succ_right, Finset.sum_Ico_eq_sum_range,
        show (i + 1) - (i + 1 - w) = w from by omega]
    rw [hre]
  · intro i hi hlt
    unfold rollingMean
    rw [List.getElem?_map, List.getElem?_range hi]
    simp only [Option.map_some']
    rw [if_neg (by omega : ¬ (1 ≤ w ∧ w ≤ i + 1))]
  · intro hlen x hx
    unfold rollingMean at hx
    obtain ⟨i, hi, rfl⟩ := List.mem_map.mp hx
    rw [List.mem_range] at hi
    rw [if_neg (by omega : ¬ (1 ≤ w ∧ w ≤ i + 1))]

/-- Witness for rollingMean_spec: the literal ten-element price sequence
with w = 5; index 4 equals the mean of indices 0 through 4, which is 3. -/
theorem rollingMean_spec_witness :
    ((5 : Nat) = 5 ∨ (5 : Nat) = 20 ∨ (5 : Nat) = 50) ∧
    4 < ([1, 2, 3, 4, 5, 6, 7, 8, 9, 10] : List ℚ).length ∧
    (5 : Nat) - 1 ≤ 4 ∧
    (rollingMean 5 [1, 2, 3, 4, 5, 6, 7, 8, 9, 10])[4]? =
      some (some ((∑ j in Finset.Icc (4 + 1 - 5) 4,
        ([1, 2, 3, 4, 5, 6, 7, 8, 9, 10] : List ℚ).getD j 0) / 5)) ∧
    (∑ j in Finset.Icc (4 + 1 - 5) 4,
      ([1, 2, 3, 4, 5, 6, 7, 8, 9, 10] : List ℚ).getD j 0) / 5 = 3 :=
  ⟨Or.inl rfl, by norm_num, by norm_num,
    (rollingMean_spec 5 (Or.inl rfl) [1, 2, 3, 4, 5, 6, 7, 8, 9, 10]).2.1 4
      (by norm_num) (by norm_num),
    by norm_num [Finset.sum_Icc_succ_top, Finset.Icc_self]⟩

/-! ## C4: date parsing -/

/-- dropWhile is the identity when no element satisfies the predicate. -/
theorem dropWhile_eq_self_of (p : Char → Bool) (l : List Char)
    (h : ∀ c ∈ l, p c = false) : l.dropWhile p = l := by
  cases l with
  | nil => rfl
  | cons a as =>
    rw [List.dropWhile_cons, h a (List.mem_cons_self a as)]
    simp

/-- Stripping leaves a list without surrounding whitespace unchanged. -/
theorem pyStripL_eq_self (cs : List Char)
    (h : ∀ c ∈ cs, isPySpace c = false) : pyStripL cs = cs := by
  unfold pyStripL
  rw [dropWhile_eq_self_of _ _ h,
    dropWhile_eq_self_of _ _ (fun c hc => h c (List.mem_reverse.mp hc)),
    List.reverse_reverse]

/-- A digit character is not python whitespace. -/
theorem isPySpace_of_digit (c : Char) (h : c.isDigit = true) :
    isPySpace c = false := by
  cases hsp : isPySpace c
  · rfl
  · exfalso
    unfold isPySpace at hsp
    simp only [Bool.or_eq_true, beq_iff_eq] at hsp
    rcases hsp with ((((h1 | h1) | h1) | h1) | h1) | h1 <;> subst h1 <;>
      exact absurd h (by decide)

/-- A nonempty all-digit list satisfies the int() digit grammar. -/
theorem pyDigits_of_all : ∀ (cs : List Char), cs ≠ [] →
    (∀ c ∈ cs, c.isDigit = true) → pyDigits cs = true
  | [], h, _ => absurd rfl h
  | [c], _, h2 => by
    simp [pyDigits, h2 c (List.mem_singleton.mpr rfl)]
  | c :: c2 :: rest, _, h2 => by
    have hc : c.isDigit = true := h2 c (by simp)
    have hc2 : c2.isDigit = true := h2 c2 (by simp)
    have hne : ¬ c2 = '_' := by
      intro he
      rw [he] at hc2
      exact absurd hc2 (by decide)
    have ih := pyDigits_of_all (c2 :: rest) (by simp)
      (fun x hx => h2 x (List.mem_cons_of_mem _ hx))
    simp [pyDigits, hc, hne, ih]

/-- Removing underscores from an all-digit list changes nothing. -/
theorem filter_underscore_eq_self (cs : List Char)
    (h : ∀ c ∈ cs, c.isDigit = true) :
    (cs.filter fun c => c != '_') = cs := by
  apply List.filter_eq_self.mpr
  intro a ha
  have hd := h a ha
  simp only [bne_iff_ne, ne_eq]
  intro he
  subst he
  exact absurd hd (by decide)

/-- python int() on a nonempty all-digit list returns its decimal value. -/
theorem pyIntL_digits (cs : List Char) (h1 : cs ≠ [])
    (h2 : ∀ c ∈ cs, c.isDigit = true) :
    pyIntL cs = some ((digitsToNat cs : Nat) : Int) := by
  have hs : pyStripL cs = cs :=
    pyStripL_eq_self cs (fun c hc => isPySpace_of_digit c (h2 c hc))
  cases cs with
  | nil => exact absurd rfl h1
  | cons c rest =>
    have hc : c.isDigit = true := h2 c (by simp)
    have hp : ¬ c = '+' := by
      intro he
      rw [he] at hc
      exact absurd hc (by decide)
    have hm : ¬ c = '-' := by
      intro he
      rw [he] at hc
      exact absurd hc (by decide)
    unfold pyIntL
    rw [hs]
    simp only [if_neg hp, if_neg hm]
    unfold pyUIntL
    rw [if_pos (pyDigits_of_all _ h1 h2),
      filter_underscore_eq_self _ h2]

/-- The int-conversion step fails on a wrong part count or any
non-numeric part. -/
theorem parseParts_none : ∀ (parts : List (List Char)),
    (parts.length ≠ 3 ∨ ∃ p ∈ parts, pyIntL p = none) →
    parseParts parts = none
  | [], _ => rfl
  | [_], _ => rfl
  | [_, _], _ => rfl
  | _ :: _ :: _ :: _ :: _, _ => rfl
  | [a, b, c], h => by
    rcases h with h | ⟨p, hp, hnone⟩
    · exact absurd rfl h
    · simp only [List.mem_cons, List.not_mem_nil, or_false] at hp
      rcases hp with rfl | rfl | rfl
      · simp [parseParts, hnone]
      · cases hxa : pyIntL a <;> simp [parseParts, hnone, hxa]
      · cases hxa : pyIntL a <;> cases hxb : pyIntL b <;>
          simp [parseParts, hnone, hxa, hxb]

/-- C4 counterexample: the parser accepts more than the strict YYYY-MM-DD
format. The text built from a 2024 - 7 - 5 shape with stray blanks and
unpadded groups is not strict YYYY-MM-DD, yet it parses successfully,
because int() tolerates surrounding whitespace and unpadded digits. -/
theorem parse_date_accepts_nonstrict :
    strictYMD (pyStripL " 2024 - 7 - 5 ".data) = none ∧
    parse_date " 2024 - 7 - 5 " ⟨2023, 7, 16⟩ = .ok ⟨2024, 7, 5⟩ :=
  ⟨rfl, rfl⟩

/-- C4 amended: date parsing accepts at least the strict YYYY-MM-DD
format. Empty or whitespace-only input returns the fallback exactly;
malformed input (wrong dash-separated part count, or a part that int()
rejects) fails with the descriptive message quoting the offending text;
and every strict YYYY-MM-DD string denoting a valid calendar date parses
to exactly that date. -/
theorem parse_date_spec (s : String) (fb : Date) :
    (pyStripL s.data = [] → parse_date s fb = .ok fb) ∧
    (pyStripL s.data ≠ [] →
      ((splitOnDashL (pyStripL s.data)).length ≠ 3 ∨
        ∃ p ∈ splitOnDashL (pyStripL s.data), pyIntL p = none) →
      parse_date s fb = .error (invalidDateMsg (pyStripL s.data))) ∧
    (∀ d, strictYMD (pyStripL s.data) = some d → parse_date s fb = .ok d) := by
  refine ⟨?_, ?_, ?_⟩
  · intro h
    unfold parse_date
    rw [if_pos h]
  · intro hne hbad
    unfold parse_date
    rw [if_neg hne, parseParts_none _ hbad]
  · intro d hd
    rcases hsp : splitOnDashL (pyStripL s.data) with
      _ | ⟨p1, _ | ⟨p2, _ | ⟨p3, _ | ⟨p4, rest⟩⟩⟩⟩ <;>
      simp only [strictYMD, hsp] at hd
    · exact Option.noConfusion hd
    · exact Option.noConfusion hd
    · exact Option.noConfusion hd
    case cons.cons.cons.nil =>
      split_ifs at hd with hcond hvalid
      obtain ⟨hl1, hl2, hl3, hall⟩ := hcond
      injection hd with hdd
      subst hdd
      have hne : pyStripL s.data ≠ [] := by
        intro h0
        rw [h0] at hsp
        simp [splitOnDashL] at hsp
      rw [List.all_append, List.all_append, Bool.and_eq_true,
        Bool.and_eq_true] at hall
      obtain ⟨⟨ha1, ha2⟩, ha3⟩ := hall
      have hd1 : ∀ x ∈ p1, x.isDigit = true := List.all_eq_true.mp ha1
      have hd2 : ∀ x ∈ p2, x.isDigit = true := List.all_eq_true.mp ha2
      have hd3 : ∀ x ∈ p3, x.isDigit = true := List.all_eq_true.mp ha3
      have hn1 : p1 ≠ [] := by
        intro h0
        rw [h0] at hl1
        simp at hl1
      have hn2 : p2 ≠ [] := by
        intro h0
        rw [h0] at hl2
        simp at hl2
      have hn3 : p3 ≠ [] := by
        intro h0
        rw [h0] at hl3
        simp at hl3
      unfold parse_date
      rw [if_neg hne, hsp]
      simp only [parseParts, pyIntL_digits p1 hn1 hd1,
        pyIntL_digits p2 hn2 hd2, pyIntL_digits p3 hn3 hd3]
      rw [if_pos hvalid]
      simp
    · exact Option.noConfusion hd

/-- Witness for parse_date_spec: whitespace input yields the fallback
exactly; a malformed two-part string fails with the quoting message; the
strict string 2024-07-15 parses to the denoted date. -/
theorem parse_date_spec_witness :
    pyStripL "   ".data = [] ∧
    parse_date "   " ⟨2023, 7, 16⟩ = .ok ⟨2023, 7, 16⟩ ∧
    (pyStripL "07-15".data ≠ [] ∧
      (splitOnDashL (pyStripL "07-15".data)).length ≠ 3) ∧
    parse_date "07-15" ⟨2023, 7, 16⟩ =
      .error (invalidDateMsg (pyStripL "07-15".data)) ∧
    strictYMD (pyStripL "2024-07-15".data) = some ⟨2024, 7, 15⟩ ∧
    parse_date "2024-07-15" ⟨2023, 7, 16⟩ = .ok ⟨2024, 7, 15⟩ :=
  ⟨rfl, (parse_date_spec "   " ⟨2023, 7, 16⟩).1 rfl,
    ⟨by decide, by decide⟩,
    (parse_date_spec "07-15" ⟨2023, 7, 16⟩).2.1 (by decide)
      (Or.inl (by decide)),
    rfl,
    (parse_date_spec "2024-07-15" ⟨2023, 7, 16⟩).2.2 ⟨2024, 7, 15⟩ rfl⟩

end StockViewer
